import Mathlib

/-!
Verification of the InverSynth training/inference pipeline (src/models/a.py)
against its design specification.  The Python module is shallowly embedded:
the pure orchestration logic is translated into Lean functions, the external
tensor engine (Keras), the audio codec (librosa/soundfile) and the spectral
kernel (kapre) are parameters of the embedding, and Python-specific semantics
(negative slices, `int` truncation, string truthiness, object equality) are
modelled explicitly.  Floating-point sample and loss values are modelled by
exact rationals, forward-pass value semantics by real numbers.
-/

namespace InverSynth

/-! ## Python semantics helpers -/

/-- Python values that occur in the embedded fragments: strings, booleans and
(uncalled) function objects such as `keras.backend.image_data_format`. -/
inductive PyVal where
  | pstr (s : String)
  | pbool (b : Bool)
  | pfunc (fname : String)
deriving DecidableEq, Repr

/-- CPython equality test `==` restricted to the values above: same-typed
strings and booleans compare by value; a function object never compares equal
to a string (neither type implements a cross-type `__eq__`, so CPython falls
back to identity, which fails). -/
def pyEq : PyVal → PyVal → Bool
  | .pstr a, .pstr b => a == b
  | .pbool a, .pbool b => a == b
  | _, _ => false

/-- CPython truthiness: a string is truthy iff it is non-empty, a boolean is
itself, a function object is truthy. -/
def pyTruthy : PyVal → Bool
  | .pstr s => !s.isEmpty
  | .pbool b => b
  | .pfunc _ => true

/-- Python slice `xs[-s:]`: for `s = 0` this is `xs[0:]`, the whole list; for
`s > 0` it keeps the last `min s (length xs)` elements. -/
def pyTailSlice (xs : List α) (s : Nat) : List α :=
  if s = 0 then xs else xs.drop (xs.length - s)

/-- Python slice `xs[:-s]`: for `s = 0` this is `xs[:0]`, the empty list; for
`s > 0` it drops the last `min s (length xs)` elements. -/
def pyHeadSlice (xs : List α) (s : Nat) : List α :=
  if s = 0 then [] else xs.take (xs.length - s)

/-- Python indexing `xs[i]`, raising `IndexError` on an out-of-range access. -/
def pyIndex (xs : List α) (i : Nat) : Except String α :=
  if h : i < xs.length then .ok (xs.get ⟨i, h⟩) else .error "IndexError"

/-- Python `int(q)` on a non-negative rational truncates towards zero, which
coincides with the floor. -/
def pyInt (q : ℚ) : Nat := (⌊q⌋).toNat

/-! ## Audio pre-processing (`input_raw_audio`) -/

/-- Modelled from the spec: the decoding inside `input_raw_audio` is the
external call `librosa.load(path, sr=sr, duration=duration)`, whose source is
not part of this repository.  Per the audio I/O adapter specification it
"decodes an audio file, resamples to `sample_rate` ... and truncates to
`duration` seconds": the `duration` keyword loads at most `⌊sr·duration⌋`
samples and never pads a shorter file.  `decoded` stands for the complete
waveform of the file after decoding and resampling to `sr`. -/
def librosa_load (decoded : List ℚ) (sr : Nat) (duration : ℚ) : List ℚ × Nat :=
  (decoded.take (pyInt ((sr : ℚ) * duration)), sr)

/-- Embedding of `input_raw_audio` (src/models/a.py): delegates to
`librosa.load` with the requested sample rate and duration and returns the
waveform together with the sample rate. -/
def input_raw_audio (decoded : List ℚ) (sr : Nat) (duration : ℚ) : List ℚ × Nat :=
  librosa_load decoded sr duration

/-! ## Validation split (`__main__`) -/

/-- Embedding of the validation split in `__main__` (src/models/a.py),
generalised over the dataset and the fraction exactly as the Python lines are
written: `slice = int(n_samples * f)`, validation partition `data[-slice:]`,
training partition `data[:-slice]`, with Python slice semantics (`-0` is `0`,
so a zero slice selects the whole list for validation and the empty list for
training).  Returns (training partition, validation partition). -/
def tail_split (xs : List α) (f : ℚ) : List α × List α :=
  (pyHeadSlice xs (pyInt ((xs.length : ℚ) * f)),
   pyTailSlice xs (pyInt ((xs.length : ℚ) * f)))

/-! ## Training orchestrator (`fit`) -/

/-- Training data as handed to `model.fit`: the train and validation splits
and the minibatch size. -/
structure FitData (D T : Type) where
  x_train : List D
  y_train : List T
  x_val : List D
  y_val : List T
  batch_size : Nat

/-- Modelled from the spec: the external engine call `keras.Model.fit` (Keras
is a dependency, not repository code).  One epoch of minibatch gradient
updates followed by the end-of-epoch validation pass is the black-box
`engineEpoch`, which returns the updated model together with that epoch
record of (training loss, validation loss); `model.fit` runs `epochs` such
epochs and accumulates the per-epoch records into the history object it
returns, one entry per completed epoch. -/
def keras_model_fit {M D T : Type} (engineEpoch : M → FitData D T → M × (ℚ × ℚ))
    (data : FitData D T) : Nat → M → M × List (ℚ × ℚ)
  | 0, m => (m, [])
  | e + 1, m =>
    let step := engineEpoch m data
    let rest := keras_model_fit engineEpoch data e step.1
    (rest.1, step.2 :: rest.2)

/-- Embedding of `fit` (src/models/a.py): calls `model.fit(x_train, y_train,
batch_size=batch_size, epochs=epochs, validation_data=(x_val, y_val))`, binds
the returned history object only for logging, and returns the model alone. -/
def fit {M D T : Type} (engineEpoch : M → FitData D T → M × (ℚ × ℚ))
    (m : M) (data : FitData D T) (epochs : Nat) : M :=
  let fitResult := keras_model_fit engineEpoch data epochs m
  let _history := fitResult.2
  fitResult.1

/-- Engine used to exercise `fit` concretely: weights are a single rational,
each epoch increments the weight and records a constant loss pair (1, 1). -/
def engA : ℚ → FitData Unit Unit → ℚ × (ℚ × ℚ) := fun m _ => (m + 1, (1, 1))

/-- Engine identical to `engA` on weights but recording loss pair (2, 2):
same model trajectory, different history. -/
def engB : ℚ → FitData Unit Unit → ℚ × (ℚ × ℚ) := fun m _ => (m + 1, (2, 2))

/-- Concrete empty training data with the default minibatch size 16. -/
def demoData : FitData Unit Unit := ⟨[], [], [], [], 16⟩

/-! ## Inference driver (`predict`) -/

/-- Decidable equality of `Except` results. -/
instance exceptDecidableEq {ε α : Type} [DecidableEq ε] [DecidableEq α] :
    DecidableEq (Except ε α) := fun x y =>
  match x, y with
  | .error a, .error b =>
    if h : a = b then isTrue (by rw [h])
    else isFalse (fun hc => by cases hc; exact h rfl)
  | .ok a, .ok b =>
    if h : a = b then isTrue (by rw [h])
    else isFalse (fun hc => by cases hc; exact h rfl)
  | .error _, .ok _ => isFalse (fun hc => by cases hc)
  | .ok _, .error _ => isFalse (fun hc => by cases hc)

/-- Two-dimensional array over an arbitrary element type (Python arrays are
untyped here; the slicing logic never inspects the elements). -/
abbrev Grid2 (α : Type) := List (List α)

/-- Three-dimensional array: one example of the model output, leading
channel axis. -/
abbrev Grid3 (α : Type) := List (List (List α))

/-- Modelled from the spec: the engine call `keras.Model.predict` runs the
network forward pass on every example of the batch, preserving batch order;
the per-example forward map `net` is a black-box parameter. -/
def keras_predict {E α : Type} (net : E → Grid3 α) (x : List E) : List (Grid3 α) :=
  x.map net

/-- numpy slice `result[0, 0]`: first element of the batch axis, then first
element of the channel axis, yielding a 2D array. -/
def slice_00 {α : Type} (result : List (Grid3 α)) : Except String (Grid2 α) :=
  pyIndex result 0 >>= fun r3 => pyIndex r3 0

/-- numpy slice `result[0, :, :, 0]`: first element of the batch axis, then
index 0 of the trailing axis of every row, yielding a 2D array. -/
def slice_0xx0 {α : Type} (result : List (Grid3 α)) : Except String (Grid2 α) :=
  pyIndex result 0 >>= fun r3 =>
    r3.mapM fun plane => plane.mapM fun row => pyIndex row 0

/-- Embedding of the branch condition in `predict`
(`keras.backend.image_data_format == 'channels_first'`): the source compares
the function object itself — it never calls it — so whatever layout the
backend is configured with, CPython evaluates the comparison of a function
object with a string to False. -/
def is_channels_first (_configured_layout : String) : Bool :=
  pyEq (.pfunc "keras.backend.image_data_format") (.pstr "channels_first")

/-- Embedding of `predict` (src/models/a.py): forward pass via
`model.predict`, then the layout-dependent squeeze of the batch and channel
axes; `logam` is accepted at any type (the `__main__` call passes the sample
rate in that position) and never used. -/
def predict {E γ α : Type} (configured_layout : String) (net : E → Grid3 α)
    (x : List E) (logam : γ) : Except String (Grid2 α) :=
  let result := keras_predict net x
  let _ := logam
  if is_channels_first configured_layout then slice_00 result
  else slice_0xx0 result

/-- Concrete single-example model output with 2 channels of 2×2 planes, on
which the `[0, 0]` squeeze and the `[0, :, :, 0]` squeeze differ. -/
def demo_out : Grid3 Nat := [[[1, 2], [3, 4]], [[5, 6], [7, 8]]]

/-! ## Architecture assembler (`assemble_model`) -/

/-- Declarative convolution stage record, from the `ArchLayer` dataclass:
filter count, 2D kernel window, 2D strides, activation (default `relu`). -/
structure ArchLayer where
  filters : Nat
  window_size : Nat × Nat
  strides : Nat × Nat
  activation : String := "relu"
deriving DecidableEq, Repr

/-- Nodes of the Keras computation graph built by `assemble_model`, carrying
the arguments the source passes to each layer constructor. -/
inductive Layer where
  | input (shape : List Nat) (lname : String)
  | spectrogram (n_dft n_hop : Nat) (input_shape : List Nat)
      (trainable_kernel : Bool) (image_data_format : String) (lname : String)
  | conv2D (filters : Nat) (window_size strides : Nat × Nat)
      (activation : String) (data_format : String)
  | dense (units : Nat) (activation : Option String) (lname : Option String)
deriving DecidableEq, Repr

/-- Convolution node built from one `ArchLayer` specification, exactly as the
loop body of `assemble_model` passes its fields to `keras.layers.Conv2D`. -/
def conv_of (al : ArchLayer) : Layer :=
  .conv2D al.filters al.window_size al.strides al.activation "channels_first"

/-- Embedding of `assemble_model` (src/models/a.py): the Keras functional API
chain is recorded as the ordered list of constructed graph nodes.  The source
creates the input node, applies the kapre `Spectrogram` layer, folds the
`arch_layers` list into a chain of channels-first `Conv2D` layers, then a
`Dense(512)` layer (default activation, i.e. linear) and the
`Dense(368, activation=sigmoid, name=predictions)` output layer. -/
def assemble_model (src_shape : List Nat) (arch_layers : List ArchLayer) : List Layer :=
  let inputs := [Layer.input src_shape "stft"]
  let n_dft := 128
  let n_hop := 64
  let x := inputs ++ [Layer.spectrogram n_dft n_hop src_shape true "channels_first" "static_stft"]
  let x := arch_layers.foldl (fun acc al => acc ++ [conv_of al]) x
  let x := x ++ [Layer.dense 512 none none]
  x ++ [Layer.dense 368 (some "sigmoid") (some "predictions")]

/-! ## Forward-pass semantics of the assembled graph -/

/-- Dense tensors of the forward-pass semantics: a shape and a total
valuation on multi-indices (only indices inside the shape are meaningful). -/
structure Tensor where
  shape : List Nat
  val : List Nat → ℝ

/-- Trainable state of one layer: a generic multi-indexed kernel, a bias
vector, and the black-box spectral transform (the kapre layer learned filter
bank applied to the incoming valuation; kapre is a dependency, not repository
code). -/
structure LayerWeights where
  kernel : List Nat → ℝ
  bias : Nat → ℝ
  specT : (List Nat → ℝ) → List Nat → ℝ

/-- Logistic sigmoid. -/
noncomputable def sigmoidR (z : ℝ) : ℝ := 1 / (1 + Real.exp (-z))

/-- Keras activation resolution for the activation names this model uses:
`relu`, `sigmoid`, and the default linear activation (absent or any other
name is the identity here). -/
noncomputable def actFun (a : Option String) : ℝ → ℝ :=
  if a = some "relu" then fun z => max z 0
  else if a = some "sigmoid" then sigmoidR
  else fun z => z

/-- Output spatial size of one axis of a valid strided 2D convolution with
input size `n`, kernel size `k` and stride `st`. -/
def convOutDim (n k st : Nat) : Nat := (n - k) / st + 1

/-- Modelled from the spec: the kapre `Spectrogram` layer (external code)
emits, in channels-first layout, one magnitude plane per input channel with
frequency axis `n_dft / 2 + 1` and time axis `⌈samples / n_hop⌉` — the
spectrogram-tensor invariant of the data model. -/
def specShape (n_dft n_hop : Nat) : List Nat → List Nat
  | [ch, len] => [ch, n_dft / 2 + 1, (len + n_hop - 1) / n_hop]
  | _ => []

/-- Evaluation of the trainable spectrogram layer: shape per `specShape`,
values produced by the black-box trainable transform of the weights. -/
noncomputable def evalSpectrogram (w : LayerWeights) (n_dft n_hop : Nat)
    (t : Tensor) : Tensor :=
  ⟨specShape n_dft n_hop t.shape, w.specT t.val⟩

/-- Evaluation of a channels-first strided `Conv2D` layer: the value at
(filter, i, j) is the activation of the bias plus the window inner product. -/
noncomputable def evalConv (w : LayerWeights) (filters : Nat)
    (ks st : Nat × Nat) (act : String) (t : Tensor) : Tensor where
  shape :=
    match t.shape with
    | [_, h, wd] => [filters, convOutDim h ks.1 st.1, convOutDim wd ks.2 st.2]
    | _ => []
  val := fun idx =>
    match idx, t.shape with
    | [f, i, j], [c, _, _] =>
      actFun (some act) (w.bias f +
        Finset.sum (Finset.range c) fun ch =>
          Finset.sum (Finset.range ks.1) fun k1 =>
            Finset.sum (Finset.range ks.2) fun k2 =>
              w.kernel [f, ch, k1, k2] * t.val [ch, i * st.1 + k1, j * st.2 + k2])
    | _, _ => 0

/-- Evaluation of a Keras `Dense` layer: it acts on the last axis, replacing
its size by `units`; the value at an index with last component `j` is the
activation of bias `j` plus the inner product of row `j` of the kernel with
the input values along the last axis. -/
noncomputable def evalDense (w : LayerWeights) (units : Nat)
    (act : Option String) (t : Tensor) : Tensor where
  shape := t.shape.dropLast ++ [units]
  val := fun idx =>
    actFun act (w.bias (idx.getLastD 0) +
      Finset.sum (Finset.range (t.shape.getLastD 0)) fun k =>
        w.kernel [idx.getLastD 0, k] * t.val (idx.dropLast ++ [k]))

/-- One step of the forward pass: dispatch on the graph node. -/
noncomputable def evalLayer (w : LayerWeights) : Layer → Tensor → Tensor
  | .input s _, t => ⟨s, t.val⟩
  | .spectrogram nd nh _ _ _ _, t => evalSpectrogram w nd nh t
  | .conv2D f ks st act _, t => evalConv w f ks st act t
  | .dense u act _, t => evalDense w u act t

/-- Forward pass over a suffix of the graph, threading the per-layer weight
index so each layer owns its weights. -/
noncomputable def forwardFrom (ws : Nat → LayerWeights) :
    Nat → List Layer → Tensor → Tensor
  | _, [], t => t
  | i, l :: rest, t => forwardFrom ws (i + 1) rest (evalLayer (ws i) l t)

/-- Forward pass of a whole assembled graph. -/
noncomputable def forward (ws : Nat → LayerWeights) (g : List Layer)
    (t : Tensor) : Tensor :=
  forwardFrom ws 0 g t

/-- Shape threading of one convolution specification: defined exactly when
the kernel fits inside the incoming spatial dimensions and the strides are
positive, in which case it yields the channels-first output shape. -/
def validStep (s : List Nat) (al : ArchLayer) : Option (List Nat) :=
  match s with
  | [c, h, wd] =>
    if 0 < c ∧ 0 < al.window_size.1 ∧ al.window_size.1 ≤ h
        ∧ 0 < al.window_size.2 ∧ al.window_size.2 ≤ wd
        ∧ 0 < al.strides.1 ∧ 0 < al.strides.2 then
      some [al.filters, convOutDim h al.window_size.1 al.strides.1,
            convOutDim wd al.window_size.2 al.strides.2]
    else none
  | _ => none

/-- Validity of a specification list for a given input shape: the input must
be a (channel, samples) pair and every convolution kernel and stride must fit
the spatial dimensions left by the preceding layers. -/
def validSpecs (src_shape : List Nat) (ls : List ArchLayer) : Bool :=
  (ls.foldl (fun (acc : Option (List Nat)) al => acc.bind fun s => validStep s al)
    (match src_shape with
     | [ch, len] =>
       if 0 < ch ∧ 0 < len then some (specShape 128 64 [ch, len]) else none
     | _ => none)).isSome

/-- Zero weights with an identity spectral transform, used to exercise the
forward semantics on a concrete network. -/
noncomputable def w0 : LayerWeights := ⟨fun _ => 0, fun _ => 0, fun f => f⟩

/-- Concrete input tensor: one channel of 16384 zero samples. -/
noncomputable def t0 : Tensor := ⟨[1, 16384], fun _ => 0⟩

/-! ## Environment gate (`__main__`) -/

/-- Python `os.getenv(key, default)` over an abstract process environment:
the looked-up value is a string when the variable is set, otherwise the
default value is returned unchanged (in the source the default is the Python
boolean `True`). -/
def os_getenv (env : String → Option String) (key : String) (dflt : PyVal) : PyVal :=
  match env key with
  | some s => .pstr s
  | none => dflt

/-- Embedding of the gate `if os.getenv('EXPERIMENTATION', True):` in
`__main__` (src/models/a.py): the gated block (model persistence and sample
reconstruction) runs exactly when this evaluates to true. -/
def experimentation_gate (env : String → Option String) : Bool :=
  pyTruthy (os_getenv env "EXPERIMENTATION" (.pbool true))

/-! ## Helper lemmas -/

/-- Evaluation rule for the Python `int` truncation of a non-negative
rational, phrased via the floor characterisation. -/
theorem pyInt_eq (q : ℚ) (n : Nat) (h1 : (n : ℚ) ≤ q) (h2 : q < n + 1) :
    pyInt q = n := by
  unfold pyInt
  have hf : ⌊q⌋ = (n : ℤ) := by
    rw [Int.floor_eq_iff]
    exact ⟨by exact_mod_cast h1, by exact_mod_cast h2⟩
  rw [hf]
  simp

/-- Python indexing at position 0 of a non-empty list succeeds with the
head. -/
theorem pyIndex_cons_zero {α : Type} (a : α) (l : List α) :
    pyIndex (a :: l) 0 = .ok a := by
  unfold pyIndex
  rw [dif_pos (show 0 < (a :: l).length from by simp)]
  rfl

/-- History bookkeeping of the engine fit call: one entry per epoch. -/
theorem keras_model_fit_history_length {M D T : Type}
    (eng : M → FitData D T → M × (ℚ × ℚ)) (d : FitData D T) :
    ∀ (e : Nat) (m : M), ((keras_model_fit eng d e m).2).length = e := by
  intro e
  induction e with
  | zero => intro m; rfl
  | succ n ih => intro m; simp [keras_model_fit, ih]

/-- Concatenating the two partitions of a non-zero tail split recovers the
dataset. -/
theorem tail_split_append (ys : List α) (f : ℚ)
    (h : pyInt ((ys.length : ℚ) * f) ≠ 0) :
    (tail_split ys f).1 ++ (tail_split ys f).2 = ys := by
  unfold tail_split pyHeadSlice pyTailSlice
  rw [if_neg h, if_neg h]
  exact List.take_append_drop _ ys

/-! ## C2: audio loading length -/

/-- C2 counterexample: a decoded file of 3 samples with requested rate 4 and
duration 2 (so R×D = 8) yields a 3-sample waveform — the load truncates but
never pads, so the returned length is not R×D. -/
theorem input_raw_audio_no_padding :
    ¬ ((input_raw_audio [1, 2, 3] 4 2).1.length = 4 * 2) := by
  have hs : pyInt (((4 : Nat) : ℚ) * 2) = 8 := by
    have h : (((4 : Nat) : ℚ) * 2) = 8 := by norm_num
    rw [h]
    exact pyInt_eq 8 8 (by norm_num) (by norm_num)
  simp only [input_raw_audio, librosa_load, hs]
  decide

/-- C2 amended: the waveform returned by `input_raw_audio` has length
`min ⌊R·D⌋ L` where `L` is the length of the decoded file — truncated to
exactly `⌊R·D⌋` samples whenever the file is at least that long, and returned
unpadded (shorter than R×D) otherwise; the returned sample rate is the
requested one. -/
theorem input_raw_audio_length (decoded : List ℚ) (sr : Nat) (duration : ℚ) :
    (input_raw_audio decoded sr duration).1.length
        = min (pyInt ((sr : ℚ) * duration)) decoded.length
    ∧ (input_raw_audio decoded sr duration).2 = sr := by
  refine ⟨?_, rfl⟩
  simp [input_raw_audio, librosa_load]

/-! ## C3: validation split -/

/-- C3 counterexample: for N = 4 and f = 1/5 the computed slice
`int(4 * (1/5))` is 0, and the Python `[-0:]` and `[:-0]` slices make the
validation partition the whole dataset and the training partition empty —
sizes 0 and 4 instead of the claimed N−⌊N·f⌋ = 4 and ⌊N·f⌋ = 0. -/
theorem tail_split_zero_slice :
    (tail_split [0, 1, 2, 3] (1/5 : ℚ)).1.length = 0
    ∧ (tail_split [0, 1, 2, 3] (1/5 : ℚ)).2.length = 4
    ∧ pyInt ((4 : ℚ) * (1/5)) = 0 := by
  have hs : pyInt ((([0, 1, 2, 3] : List Nat).length : ℚ) * (1/5)) = 0 := by
    have h : ((([0, 1, 2, 3] : List Nat).length : ℚ) * (1/5)) = 4/5 := by norm_num
    rw [h]
    exact pyInt_eq (4/5) 0 (by norm_num) (by norm_num)
  refine ⟨?_, ?_, ?_⟩
  · simp only [tail_split, hs, pyHeadSlice]
    decide
  · simp only [tail_split, hs, pyTailSlice]
    decide
  · have h : ((4 : ℚ) * (1/5)) = 4/5 := by norm_num
    rw [h]
    exact pyInt_eq (4/5) 0 (by norm_num) (by norm_num)

/-- C3 amended: provided the computed slice `⌊N·f⌋` is positive and at most
N, the training partition is the first N−⌊N·f⌋ elements and the validation
partition the last ⌊N·f⌋ elements: their sizes are N−⌊N·f⌋ and ⌊N·f⌋, they
concatenate back to the dataset, and on the dataset of example indices the
two partitions are disjoint.  When `⌊N·f⌋ = 0` the code instead returns an
empty training partition and the whole dataset as validation. -/
theorem tail_split_sizes_disjoint (xs : List α) (f : ℚ)
    (h1 : 0 < pyInt ((xs.length : ℚ) * f))
    (h2 : pyInt ((xs.length : ℚ) * f) ≤ xs.length) :
    (tail_split xs f).1.length = xs.length - pyInt ((xs.length : ℚ) * f)
    ∧ (tail_split xs f).2.length = pyInt ((xs.length : ℚ) * f)
    ∧ (tail_split xs f).1 ++ (tail_split xs f).2 = xs
    ∧ List.Disjoint (tail_split (List.range xs.length) f).1
        (tail_split (List.range xs.length) f).2 := by
  have hne : pyInt ((xs.length : ℚ) * f) ≠ 0 := Nat.pos_iff_ne_zero.mp h1
  refine ⟨?_, ?_, tail_split_append xs f hne, ?_⟩
  · unfold tail_split pyHeadSlice
    rw [if_neg hne]
    simp
  · unfold tail_split pyTailSlice
    rw [if_neg hne]
    simp [Nat.sub_sub_self h2]
  · have hlen : (List.range xs.length).length = xs.length := List.length_range _
    have happ : (tail_split (List.range xs.length) f).1
        ++ (tail_split (List.range xs.length) f).2 = List.range xs.length := by
      apply tail_split_append
      rw [hlen]
      exact hne
    have hnd : ((tail_split (List.range xs.length) f).1
        ++ (tail_split (List.range xs.length) f).2).Nodup := by
      rw [happ]; exact List.nodup_range _
    exact (List.nodup_append.mp hnd).2.2

/-- C3 witness: a dataset of 10 examples with fraction 1/5 satisfies the
hypotheses (slice 2) and the amended split properties. -/
theorem tail_split_sizes_witness :
    0 < pyInt ((([0, 1, 2, 3, 4, 5, 6, 7, 8, 9] : List Nat).length : ℚ) * (1/5))
    ∧ pyInt ((([0, 1, 2, 3, 4, 5, 6, 7, 8, 9] : List Nat).length : ℚ) * (1/5))
        ≤ ([0, 1, 2, 3, 4, 5, 6, 7, 8, 9] : List Nat).length
    ∧ ((tail_split ([0, 1, 2, 3, 4, 5, 6, 7, 8, 9] : List Nat) (1/5)).1.length
          = ([0, 1, 2, 3, 4, 5, 6, 7, 8, 9] : List Nat).length
              - pyInt ((([0, 1, 2, 3, 4, 5, 6, 7, 8, 9] : List Nat).length : ℚ) * (1/5))
        ∧ (tail_split ([0, 1, 2, 3, 4, 5, 6, 7, 8, 9] : List Nat) (1/5)).2.length
            = pyInt ((([0, 1, 2, 3, 4, 5, 6, 7, 8, 9] : List Nat).length : ℚ) * (1/5))
        ∧ (tail_split ([0, 1, 2, 3, 4, 5, 6, 7, 8, 9] : List Nat) (1/5)).1
            ++ (tail_split ([0, 1, 2, 3, 4, 5, 6, 7, 8, 9] : List Nat) (1/5)).2
            = [0, 1, 2, 3, 4, 5, 6, 7, 8, 9]
        ∧ List.Disjoint
            (tail_split (List.range ([0, 1, 2, 3, 4, 5, 6, 7, 8, 9] : List Nat).length) (1/5)).1
            (tail_split (List.range ([0, 1, 2, 3, 4, 5, 6, 7, 8, 9] : List Nat).length) (1/5)).2) :=
  have hs : pyInt ((([0, 1, 2, 3, 4, 5, 6, 7, 8, 9] : List Nat).length : ℚ) * (1/5)) = 2 := by
    have h : ((([0, 1, 2, 3, 4, 5, 6, 7, 8, 9] : List Nat).length : ℚ) * (1/5)) = 2 := by
      norm_num
    rw [h]
    exact pyInt_eq 2 2 (by norm_num) (by norm_num)
  ⟨by rw [hs]; decide, by rw [hs]; decide,
    tail_split_sizes_disjoint [0, 1, 2, 3, 4, 5, 6, 7, 8, 9] (1/5)
      (by rw [hs]; decide) (by rw [hs]; decide)⟩

/-! ## C1: fit return value and history -/

/-- C1 counterexample: the engines `engA` and `engB` drive identical weight
trajectories but record different losses, so after two epochs `fit` returns
the same value for both while the histories accumulated by the engine differ
— the value returned by `fit` is the mutated model alone and does not carry
the training history. -/
theorem fit_discards_history :
    fit engA 0 demoData 2 = fit engB 0 demoData 2
    ∧ (keras_model_fit engA demoData 2 0).2 ≠ (keras_model_fit engB demoData 2 0).2 := by
  refine ⟨rfl, ?_⟩
  have hA : (keras_model_fit engA demoData 2 0).2 = [((1 : ℚ), (1 : ℚ)), (1, 1)] := rfl
  have hB : (keras_model_fit engB demoData 2 0).2 = [((2 : ℚ), (2 : ℚ)), (2, 2)] := rfl
  rw [hA, hB]
  intro h
  have h1 : ((1 : ℚ), (1 : ℚ)) = ((2 : ℚ), (2 : ℚ)) := by injection h
  have h2 : (1 : ℚ) = 2 := congrArg Prod.fst h1
  norm_num at h2

/-- C1 amended: for every engine, model, data and epoch count E > 0, `fit`
returns exactly the model component of the engine fit call, and the history
that call accumulates (logged by `fit` and then discarded) holds exactly E
entries, each one a (training loss, validation loss) pair by construction. -/
theorem fit_returns_model_with_history_logged {M D T : Type}
    (eng : M → FitData D T → M × (ℚ × ℚ)) (m : M) (data : FitData D T)
    (E : Nat) (_hE : 0 < E) :
    fit eng m data E = (keras_model_fit eng data E m).1
    ∧ ((keras_model_fit eng data E m).2).length = E :=
  ⟨rfl, keras_model_fit_history_length eng data E m⟩

/-- C1 witness: three epochs of the concrete engine `engA`. -/
theorem fit_history_length_witness :
    0 < 3
    ∧ (fit engA 0 demoData 3 = (keras_model_fit engA demoData 3 0).1
       ∧ ((keras_model_fit engA demoData 3 0).2).length = 3) :=
  ⟨by decide, fit_returns_model_with_history_logged engA 0 demoData 3 (by decide)⟩

/-! ## C4, C7, C10: predict -/

/-- C4 code bug, evaluated: with the backend configured channels-first and a
single-example output batch whose `[0, 0]` squeeze is [[1, 2], [3, 4]],
`predict` nevertheless returns the `[0, :, :, 0]` squeeze [[1, 3], [5, 7]],
because the branch compares the uncalled function object
`keras.backend.image_data_format` with a string, which is always False. -/
theorem predict_channels_first_ignored :
    predict "channels_first" (fun _ : Unit => demo_out) [()] true = .ok [[1, 3], [5, 7]]
    ∧ slice_00 (keras_predict (fun _ : Unit => demo_out) [()]) = .ok [[1, 2], [3, 4]]
    ∧ predict "channels_first" (fun _ : Unit => demo_out) [()] true
        ≠ slice_00 (keras_predict (fun _ : Unit => demo_out) [()]) := by
  refine ⟨rfl, rfl, ?_⟩
  decide

/-- C7 counterexample: a batch with leading dimension 2 does not fail —
`predict` contains no batch-size check and no `ShapeError`, it simply squeezes
the first example and succeeds. -/
theorem predict_batch_two_succeeds :
    predict "channels_last" (fun _ : Unit => demo_out) [(), ()] (0 : Nat)
      = .ok [[1, 3], [5, 7]] := by decide

/-- C7 amended: `predict` performs no batch-size check and can raise no
`ShapeError`: on any batch with at least one example it returns exactly the
squeeze of the forward output of the first example, whatever the leading
dimension is, and on an empty batch it fails with an `IndexError` raised by
the `result[0, ...]` indexing. -/
theorem predict_first_example_slice {E γ α : Type} (layout : String)
    (net : E → Grid3 α) (e : E) (rest : List E) (g g2 : γ) :
    predict layout net (e :: rest) g
        = ((net e).mapM fun plane => plane.mapM fun row => pyIndex row 0)
    ∧ predict layout net ([] : List E) g2 = .error "IndexError" := by
  constructor
  · simp only [predict, keras_predict, List.map]
    rw [if_neg (by simp [is_channels_first, pyEq])]
    simp only [slice_0xx0, pyIndex_cons_zero]
    rfl
  · simp only [predict, keras_predict, List.map]
    rw [if_neg (by simp [is_channels_first, pyEq])]
    rfl

/-- C10: the value returned by `predict` does not depend on the `logam`
argument — any two values, even of different types, give identical results. -/
theorem predict_ignores_logam {E γ δ α : Type} (layout : String)
    (net : E → Grid3 α) (x : List E) (a : γ) (b : δ) :
    predict layout net x a = predict layout net x b := rfl

/-! ## C5, C6: architecture assembly and forward pass -/

/-- Folding convolution specifications onto a prefix of the graph appends the
mapped convolution nodes in order. -/
theorem foldl_conv_append (ls : List ArchLayer) (acc : List Layer) :
    ls.foldl (fun a al => a ++ [conv_of al]) acc = acc ++ ls.map conv_of := by
  induction ls generalizing acc with
  | nil => simp
  | cons hd tl ih => simp [List.foldl_cons, ih]

/-- Closed form of the assembled graph. -/
theorem assemble_model_eq (s : List Nat) (ls : List ArchLayer) :
    assemble_model s ls =
      Layer.input s "stft"
        :: Layer.spectrogram 128 64 s true "channels_first" "static_stft"
        :: (ls.map conv_of
            ++ [Layer.dense 512 none none,
                Layer.dense 368 (some "sigmoid") (some "predictions")]) := by
  simp [assemble_model, foldl_conv_append]

/-- Forward evaluation distributes over appending a final layer, which is
evaluated with the weight slot following the prefix. -/
theorem forwardFrom_append (ws : Nat → LayerWeights) (g : List Layer) :
    ∀ (i : Nat) (l : Layer) (t : Tensor),
      forwardFrom ws i (g ++ [l]) t
        = evalLayer (ws (i + g.length)) l (forwardFrom ws i g t) := by
  induction g with
  | nil => intro i l t; simp [forwardFrom]
  | cons hd tl ih =>
    intro i l t
    rw [List.cons_append]
    simp only [forwardFrom]
    rw [ih]
    have harith : i + 1 + tl.length = i + (hd :: tl).length := by
      rw [List.length_cons]
      omega
    rw [harith]

/-- The last entry of a list extended by a singleton is that singleton. -/
theorem getLast?_append_single {α : Type} (l : List α) (a : α) :
    (l ++ [a]).getLast? = some a := by
  rw [List.getLast?_append_cons l a []]
  rfl

/-- The sigmoid is non-negative. -/
theorem sigmoidR_nonneg (z : ℝ) : 0 ≤ sigmoidR z := by
  unfold sigmoidR
  positivity

/-- The sigmoid is at most one. -/
theorem sigmoidR_le_one (z : ℝ) : sigmoidR z ≤ 1 := by
  unfold sigmoidR
  rw [div_le_one (by positivity)]
  have h := Real.exp_pos (-z)
  linarith

/-- Activation resolution of the name `sigmoid`. -/
theorem actFun_sigmoid : actFun (some "sigmoid") = sigmoidR := by
  unfold actFun
  rw [if_neg (by decide), if_pos rfl]

/-- C5: for every input shape and non-empty ordered list of layer
specifications, the assembled graph is exactly: the input node (shaped per
the input shape, named `stft`), the trainable channels-first spectrogram
layer with window 128 and hop 64, one channels-first 2D convolution per
specification in list order carrying that specification's filter count,
kernel window, strides and activation, a 512-unit dense layer with the
default (linear) activation, and a 368-unit sigmoid dense output layer named
`predictions`. -/
theorem assemble_model_structure (s : List Nat) (ls : List ArchLayer)
    (_h : ls ≠ []) :
    assemble_model s ls =
      Layer.input s "stft"
        :: Layer.spectrogram 128 64 s true "channels_first" "static_stft"
        :: (ls.map conv_of
            ++ [Layer.dense 512 none none,
                Layer.dense 368 (some "sigmoid") (some "predictions")]) :=
  assemble_model_eq s ls

/-- C5 witness: the concrete configuration of `__main__` — input shape
(1, 16384) and the single specification C(38, 13, 26, 13, 26). -/
theorem assemble_model_structure_witness :
    ([ArchLayer.mk 38 (13, 26) (13, 26) "relu"] : List ArchLayer) ≠ []
    ∧ assemble_model [1, 16384] [ArchLayer.mk 38 (13, 26) (13, 26) "relu"]
        = Layer.input [1, 16384] "stft"
          :: Layer.spectrogram 128 64 [1, 16384] true "channels_first" "static_stft"
          :: ([ArchLayer.mk 38 (13, 26) (13, 26) "relu"].map conv_of
              ++ [Layer.dense 512 none none,
                  Layer.dense 368 (some "sigmoid") (some "predictions")]) :=
  ⟨by decide, assemble_model_structure [1, 16384]
    [ArchLayer.mk 38 (13, 26) (13, 26) "relu"] (by decide)⟩

/-- C6: for every input shape, every non-empty specification list whose
kernels and strides are valid for that shape, all weights and any input
tensor, the forward pass of the assembled model ends in the 368-unit sigmoid
dense layer: the final axis of the output shape has size 368 and every value
of the output valuation lies in the closed interval [0, 1]. -/
theorem assemble_model_output_sigmoid (s : List Nat) (ls : List ArchLayer)
    (ws : Nat → LayerWeights) (t : Tensor) (_h1 : ls ≠ [])
    (_h2 : validSpecs s ls = true) :
    (forward ws (assemble_model s ls) t).shape.getLast? = some 368
    ∧ ∀ idx, 0 ≤ (forward ws (assemble_model s ls) t).val idx
        ∧ (forward ws (assemble_model s ls) t).val idx ≤ 1 := by
  have hsplit : assemble_model s ls =
      (Layer.input s "stft"
        :: Layer.spectrogram 128 64 s true "channels_first" "static_stft"
        :: (ls.map conv_of ++ [Layer.dense 512 none none]))
      ++ [Layer.dense 368 (some "sigmoid") (some "predictions")] := by
    rw [assemble_model_eq]
    simp
  have hfwd : forward ws (assemble_model s ls) t
      = evalDense (ws (0 + (Layer.input s "stft"
          :: Layer.spectrogram 128 64 s true "channels_first" "static_stft"
          :: (ls.map conv_of ++ [Layer.dense 512 none none])).length))
          368 (some "sigmoid")
          (forwardFrom ws 0
            (Layer.input s "stft"
              :: Layer.spectrogram 128 64 s true "channels_first" "static_stft"
              :: (ls.map conv_of ++ [Layer.dense 512 none none])) t) := by
    rw [forward, hsplit, forwardFrom_append]
    rfl
  rw [hfwd]
  constructor
  · exact getLast?_append_single _ 368
  · intro idx
    show 0 ≤ actFun (some "sigmoid") _ ∧ actFun (some "sigmoid") _ ≤ 1
    rw [actFun_sigmoid]
    exact ⟨sigmoidR_nonneg _, sigmoidR_le_one _⟩

/-- C6 witness: the concrete configuration of `__main__` — one channel of
16384 samples and the single valid specification C(38, 13, 26, 13, 26); the
validity check computes the shape chain (1, 65, 256) → (38, 5, 9). -/
theorem assemble_model_output_sigmoid_witness :
    ([ArchLayer.mk 38 (13, 26) (13, 26) "relu"] : List ArchLayer) ≠ []
    ∧ validSpecs [1, 16384] [ArchLayer.mk 38 (13, 26) (13, 26) "relu"] = true
    ∧ (forward (fun _ => w0)
        (assemble_model [1, 16384] [ArchLayer.mk 38 (13, 26) (13, 26) "relu"])
        t0).shape.getLast? = some 368 :=
  ⟨by decide, by decide,
    (assemble_model_output_sigmoid [1, 16384]
      [ArchLayer.mk 38 (13, 26) (13, 26) "relu"] (fun _ => w0) t0
      (by decide) (by decide)).1⟩

/-! ## C9: EXPERIMENTATION gate -/

/-- C9 code bug, evaluated: the gate tests Python string truthiness of the
`os.getenv` result, so the gated block runs for `EXPERIMENTATION=False` and
`EXPERIMENTATION=0` (non-empty strings are truthy) and also when the variable
is unset (default `True`); only the empty string skips it. -/
theorem experimentation_gate_truthiness :
    experimentation_gate (fun k => if k = "EXPERIMENTATION" then some "False" else none) = true
    ∧ experimentation_gate (fun k => if k = "EXPERIMENTATION" then some "0" else none) = true
    ∧ experimentation_gate (fun _ => none) = true
    ∧ experimentation_gate (fun k => if k = "EXPERIMENTATION" then some "" else none) = false := by
  decide

end InverSynth
